import Mathlib

/-!
Verification of the host-fact resolver in `src/app/api/system/route.ts`.

The TypeScript source is shallowly embedded: the Node `fs`/`os` effects are
modelled by explicit record-of-functions states (`FS`, `OSFacts`), exceptions
thrown by `fs.statSync`/`fs.readFileSync`/`fs.statfsSync` are modelled with
`Except Unit`, and JavaScript numbers are modelled by exact rationals together
with the `NaN`/`Infinity` values that the source can produce (`JSVal`).
String helpers mirror the JavaScript operations actually used by the source
(`split`, `trim`, `startsWith`, `includes`, `match(/(\d+)/)`, `parseInt`,
`parseFloat`) on the inputs the source applies them to.
-/

namespace Route

/-! ### JavaScript string primitives (list-of-char based, kernel-reducible) -/

/-- Split a character list at every character satisfying `p`
(JavaScript `String.prototype.split` with a single-character class):
splitting the empty string yields one empty piece. -/
def splitPred (p : Char → Bool) : List Char → List (List Char)
  | [] => [[]]
  | c :: t =>
    match splitPred p t with
    | [] => [[]]
    | s :: rs => if p c then [] :: s :: rs else (c :: s) :: rs

/-- JavaScript `s.split("\n")`. -/
def splitLines (s : String) : List String :=
  (splitPred (fun c => c = '\n') s.toList).map String.mk

/-- JavaScript `s.split(/\s+/)` as applied by the source, which only ever calls
it on already-trimmed strings: the empty string yields `[""]`, and a trimmed
non-empty string yields its maximal whitespace-free tokens. -/
def jsSplitWs (s : String) : List String :=
  if s = "" then [""]
  else ((splitPred Char.isWhitespace s.toList).filter (fun l => l ≠ [])).map String.mk

/-- JavaScript `s.trim()` (whitespace restricted to the ASCII whitespace that
`/proc` text can contain). -/
def jsTrim (s : String) : String :=
  String.mk (((s.toList.dropWhile Char.isWhitespace).reverse.dropWhile Char.isWhitespace).reverse)

/-- JavaScript `s.startsWith(pre)`. -/
def strStarts (s pre : String) : Bool :=
  pre.toList.isPrefixOf s.toList

def containsAux : List Char → List Char → Bool
  | [], sub => sub.isEmpty
  | c :: t, sub => sub.isPrefixOf (c :: t) || containsAux t sub

/-- JavaScript `s.includes(sub)`. -/
def strContains (s sub : String) : Bool :=
  containsAux s.toList sub.toList

/-- JavaScript `s.toLowerCase()` on ASCII text. -/
def strToLower (s : String) : String :=
  String.mk (s.toList.map Char.toLower)

def firstDigitsAux : List Char → Option (List Char)
  | [] => none
  | c :: t => if c.isDigit then some (c :: t.takeWhile Char.isDigit) else firstDigitsAux t

def digitsToNat (l : List Char) : Nat :=
  l.foldl (fun a c => a * 10 + (c.toNat - 48)) 0

/-- JavaScript `parseInt(s.match(/(\d+)/)[1])`: the first maximal decimal digit
run of `s`, or `none` when `s` has no digit (the `match` is `null`). -/
def firstDigitRun (s : String) : Option Nat :=
  (firstDigitsAux s.toList).map digitsToNat

/-- JavaScript `parseFloat(s) || 0` on the whitespace-free tokens the source
feeds it (an optional sign, an integer part, an optional fractional part;
`NaN` — no digits at all — collapses to `0` through `|| 0`, as does a missing
token). Exponent forms do not occur in `/proc/stat`-style counters. -/
def jsParseFloatOr0 (s : String) : Rat :=
  let l := s.toList
  let sgn : Rat := match l with
    | '-' :: _ => -1
    | _ => 1
  let l2 : List Char := match l with
    | '-' :: t => t
    | '+' :: t => t
    | _ => l
  let ip := l2.takeWhile Char.isDigit
  let rest := l2.drop ip.length
  let fp : List Char := match rest with
    | '.' :: t => t.takeWhile Char.isDigit
    | _ => []
  if ip.isEmpty && fp.isEmpty then 0
  else sgn * ((digitsToNat ip : Rat) + (digitsToNat fp : Rat) / ((10 : Rat) ^ fp.length))

def hexVal (c : Char) : Option Nat :=
  if c.isDigit then some (c.toNat - 48)
  else if 'a' ≤ c && c ≤ 'f' then some (c.toNat - 87)
  else if 'A' ≤ c && c ≤ 'F' then some (c.toNat - 55)
  else none

/-- JavaScript `parseInt(s, 16)` on the source's two-character slices: the
leading run of hexadecimal digits, or `none` (`NaN`) when there is none. -/
def hexLeadNat (s : String) : Option Nat :=
  let ds := s.toList.takeWhile (fun c => (hexVal c).isSome)
  if ds.isEmpty then none
  else some (ds.foldl (fun a c => a * 16 + (hexVal c).getD 0) 0)

/-- JavaScript `s.substring(i, j)` for `i ≤ j` within an ASCII string. -/
def sliceStr (s : String) (i j : Nat) : String :=
  String.mk ((s.toList.drop i).take (j - i))

/-! ### JavaScript numbers

The usage percentages can hit `0/0` and `x/0`, so they are modelled by exact
rationals extended with `NaN` and the two infinities, with the propagation
rules of IEEE arithmetic as JavaScript exposes them (`Math.min`/`Math.max`
return `NaN` when an argument is `NaN`). All finite intermediate values in the
source are integers or small ratios, which doubles represent exactly. -/

inductive JSVal where
  | num (x : Rat)
  | nan
  | inf
  | ninf
deriving DecidableEq

/-- JavaScript division `a / b` of finite values. -/
def jsDiv (a b : Rat) : JSVal :=
  if b = 0 then
    if a = 0 then .nan else if a > 0 then .inf else .ninf
  else .num (a / b)

/-- JavaScript multiplication of a possibly non-finite value by a finite one. -/
def jsMul (v : JSVal) (c : Rat) : JSVal :=
  match v with
  | .num x => .num (x * c)
  | .nan => .nan
  | .inf => if c > 0 then .inf else if c = 0 then .nan else .ninf
  | .ninf => if c > 0 then .ninf else if c = 0 then .nan else .inf

/-- JavaScript `Math.min(v, c)` with finite `c`. -/
def jsMinC (v : JSVal) (c : Rat) : JSVal :=
  match v with
  | .num x => .num (min x c)
  | .nan => .nan
  | .inf => .num c
  | .ninf => .ninf

/-- JavaScript `Math.max(v, c)` with finite `c`. -/
def jsMaxC (v : JSVal) (c : Rat) : JSVal :=
  match v with
  | .num x => .num (max x c)
  | .nan => .nan
  | .inf => .inf
  | .ninf => .num c

/-! ### The filesystem and process-introspection state -/

/-- Result of `fs.statfsSync`. -/
structure DiskStats where
  blocks : Nat
  bsize : Nat
  bavail : Nat
deriving DecidableEq

/-- The Node `fs` module as the source uses it. `fs.existsSync` never throws
(it reports `false` on error); `fs.statSync` (queried only through
`.isFile()`), `fs.readFileSync` and `fs.statfsSync` may throw, modelled by
`Except Unit`. -/
structure FS where
  existsSync : String → Bool
  statIsFile : String → Except Unit Bool
  readFileSync : String → Except Unit String
  statfsSync : String → Except Unit DiskStats

/-- One entry of the flattened `os.networkInterfaces()` listing, in iteration
order. -/
structure IfAddr where
  address : String
  isIPv4 : Bool
  internal : Bool
deriving DecidableEq

/-- The Node `os` module facts the source consults as fallbacks. -/
structure OSFacts where
  totalmem : Nat
  freemem : Nat
  cpus : List String
  load1 : Rat
  hostname : String
  ifaces : List IfAddr

/-! ### readHostFile (route.ts lines 13–64) -/

/-- `isHostMounted` (route.ts lines 7–11). -/
def isHostMounted (fs : FS) : Bool :=
  fs.existsSync "/host/proc" && fs.existsSync "/host/sys" && fs.existsSync "/host/etc"

/-- One guarded read attempt of `readHostFile`: exists, is a regular file,
readable, and trims to non-empty content; every thrown error and every failed
check yields `none` (the `catch`-and-continue of the source). -/
def tryRead (fs : FS) (p : String) : Option String :=
  if fs.existsSync p then
    match fs.statIsFile p with
    | .ok true =>
      match fs.readFileSync p with
      | .ok content => if jsTrim content ≠ "" then some (jsTrim content) else none
      | .error _ => none
    | .ok false => none
    | .error _ => none
  else none

/-- The candidate path of tier `k` for a logical `path`. -/
def tierPath (path : String) : Nat → String
  | 0 => "/proc/1/root" ++ path
  | 1 => "/host" ++ path
  | _ => path

/-- The guarded attempt of tier `k` exactly as `readHostFile` performs it:
tier 0 only when `/proc/1/root` exists, tier 1 only when the host-mount
markers are present, tier 2 unconditionally. -/
def tierRead (fs : FS) (path : String) : Nat → Option String
  | 0 => if fs.existsSync "/proc/1/root" then tryRead fs (tierPath path 0) else none
  | 1 => if isHostMounted fs then tryRead fs (tierPath path 1) else none
  | 2 => tryRead fs (tierPath path 2)
  | _ + 3 => none

/-- `readHostFile` (route.ts lines 13–64): the three tiers in order, then the
caller-supplied fallback producer. -/
def readHostFile (fs : FS) (path : String) (fallback : Unit → String) : String :=
  match tierRead fs path 0 with
  | some c => c
  | none =>
    match tierRead fs path 1 with
    | some c => c
    | none =>
      match tierRead fs path 2 with
      | some c => c
      | none => fallback ()

/-! ### Concrete filesystem states used by the witnesses and counterexamples -/

/-- A container-local filesystem holding exactly one regular file. -/
def localFS (file doc : String) : FS where
  existsSync := fun p => p = file
  statIsFile := fun p => if p = file then .ok true else .error ()
  readFileSync := fun p => if p = file then .ok doc else .error ()
  statfsSync := fun _ => .error ()

/-- A filesystem where nothing exists and every call throws. -/
def emptyFS : FS where
  existsSync := fun _ => false
  statIsFile := fun _ => .error ()
  readFileSync := fun _ => .error ()
  statfsSync := fun _ => .error ()

/-! ### CPU identity and count (`getHostCPUInfo`, route.ts lines 66–136)

Only the `count` component is consumed by the claims (and by
`getHostCPUUsage`); the model-name string extraction has no bearing on any
claim and is not embedded. -/

/-- The regex test `trimmed.match(/^processor\s*[:=]/i)`, evaluated on strings
already known to start with lowercase `processor` (the conjunct the source
checks first). -/
def procSepMatch (t : String) : Bool :=
  match (t.toList.drop 9).dropWhile Char.isWhitespace with
  | c :: _ => c = ':' || c = '='
  | [] => false

/-- The regex test `trimmed.match(/^processor\s+\d+/i)`, under the same
lowercase-`processor` precondition. -/
def procIdxMatch (t : String) : Bool :=
  match t.toList.drop 9 with
  | c :: rest =>
    c.isWhitespace &&
      (match rest.dropWhile Char.isWhitespace with
       | d :: _ => d.isDigit
       | [] => false)
  | [] => false

/-- The filter of route.ts lines 109–113: the trimmed line starts with
`processor` and continues with a separator or a numeric index. -/
def isProcessorLine (line : String) : Bool :=
  let t := jsTrim line
  strStarts t "processor" && (procSepMatch t || procIdxMatch t)

/-- Route.ts lines 117–124: the first line containing `cpu(s)`
(case-insensitively) contributes its first digit run; no line or no digits
leaves the count at `0`. -/
def cpuSummaryCount (lines : List String) : Nat :=
  match lines.find? (fun l => strContains (strToLower l) "cpu(s)") with
  | some l => (firstDigitRun l).getD 0
  | none => 0

/-- The count chain of `getHostCPUInfo` on a non-empty document (route.ts
lines 109–129): processor-line count, then the `CPU(s):` summary, then the
process's own logical CPU count. -/
def cpuCountFromDoc (osF : OSFacts) (cpuInfo : String) : Nat :=
  let lines := splitLines cpuInfo
  let c1 := (lines.filter isProcessorLine).length
  let c2 := if c1 = 0 then cpuSummaryCount lines else c1
  if c2 = 0 then osF.cpus.length else c2

/-- The fallback document of route.ts lines 67–70. -/
def cpuinfoFallbackDoc (osF : OSFacts) : String :=
  match osF.cpus with
  | [] => ""
  | m :: _ => "model name\t: " ++ m ++ "\nprocessor\t: 0"

/-- The `count` component of `getHostCPUInfo` (route.ts lines 66–136),
including the `count || 1` at line 131 and the empty-document branch of
lines 134–135. -/
def getHostCPUCount (fs : FS) (osF : OSFacts) : Nat :=
  let cpuInfo := readHostFile fs "/proc/cpuinfo" (fun _ => cpuinfoFallbackDoc osF)
  if cpuInfo ≠ "" then
    let c := cpuCountFromDoc osF cpuInfo
    if c = 0 then 1 else c
  else osF.cpus.length

/-! ### Memory (`getHostMemory`, route.ts lines 138–176, and the second
variant at lines 394–424) -/

structure MemStats where
  total : Int
  free : Int
  available : Int
deriving DecidableEq

/-- One labelled field of the meminfo parse: the first line starting with
`label` contributes `parseInt(firstDigitRun) * 1024` bytes; a missing line or
a line without digits keeps the process-introspection default. -/
def memFieldVal (lines : List String) (label : String) (dflt : Int) : Int :=
  match lines.find? (fun l => strStarts l label) with
  | some l =>
    match firstDigitRun l with
    | some n => (n : Int) * 1024
    | none => dflt
  | none => dflt

/-- The fallback document of route.ts lines 139–141. -/
def memFallbackDoc (osF : OSFacts) : String :=
  "MemTotal: " ++ toString (osF.totalmem / 1024) ++ " kB\nMemAvailable: " ++
    toString (osF.freemem / 1024) ++ " kB\nMemFree: " ++
    toString (osF.freemem / 1024) ++ " kB"

/-- The parse of `getHostMemory` (route.ts lines 143–175) on the resolved
document. -/
def memFromDoc (osF : OSFacts) (memInfo : String) : MemStats :=
  if memInfo ≠ "" then
    let lines := splitLines memInfo
    { total := memFieldVal lines "MemTotal" (osF.totalmem : Int)
      available := memFieldVal lines "MemAvailable" (osF.freemem : Int)
      free := memFieldVal lines "MemFree" (osF.freemem : Int) }
  else { total := (osF.totalmem : Int), free := (osF.freemem : Int), available := (osF.freemem : Int) }

/-- `getHostMemory` (route.ts lines 138–176). -/
def getHostMemory (fs : FS) (osF : OSFacts) : MemStats :=
  memFromDoc osF (readHostFile fs "/proc/meminfo" (fun _ => memFallbackDoc osF))

/-- The `memory.used` field of the `GET` response (route.ts line 273):
`total − available`, with no clamping. -/
def memoryUsedField (fs : FS) (osF : OSFacts) : Int :=
  (getHostMemory fs osF).total - (getHostMemory fs osF).available

/-- The fallback document of the second variant (route.ts lines 395–397):
no `MemFree` line. -/
def memFallbackDoc2 (osF : OSFacts) : String :=
  "MemTotal: " ++ toString (osF.totalmem / 1024) ++ " kB\nMemAvailable: " ++
    toString (osF.freemem / 1024) ++ " kB"

/-- The parse of the second variant's `getHostMemory` (route.ts lines
399–423): `(total, free)` where the free line is the first `MemAvailable`
line, falling back to the first `MemFree` line. -/
def memFromDoc2 (osF : OSFacts) (memInfo : String) : Int × Int :=
  if memInfo ≠ "" then
    let lines := splitLines memInfo
    let freeLine := match lines.find? (fun l => strStarts l "MemAvailable") with
      | some l => some l
      | none => lines.find? (fun l => strStarts l "MemFree")
    let total := memFieldVal lines "MemTotal" (osF.totalmem : Int)
    let free : Int := match freeLine with
      | some l =>
        match firstDigitRun l with
        | some n => (n : Int) * 1024
        | none => (osF.freemem : Int)
      | none => (osF.freemem : Int)
    (total, free)
  else ((osF.totalmem : Int), (osF.freemem : Int))

/-- The second variant's `getHostMemory` (route.ts lines 394–424). -/
def getHostMemory2 (fs : FS) (osF : OSFacts) : Int × Int :=
  memFromDoc2 osF (readHostFile fs "/proc/meminfo" (fun _ => memFallbackDoc2 osF))

/-! ### CPU usage (`getHostCPUUsage`, route.ts lines 178–218) -/

/-- The `/proc/stat` branch of `getHostCPUUsage` (route.ts lines 182–209):
`some usage` when the document is non-empty, has a `cpu ` aggregate line with
at least five fields, and the counter total is positive; `none` otherwise
(which sends the source to the load-average fallback). -/
def cpuUsageFromStatDoc (stat : String) : Option Rat :=
  if stat ≠ "" then
    match (splitLines stat).find? (fun l => strStarts l "cpu ") with
    | some cpuLine =>
      let parts := jsSplitWs (jsTrim cpuLine)
      if parts.length ≥ 5 then
        let user := jsParseFloatOr0 (parts.getD 1 "")
        let nice := jsParseFloatOr0 (parts.getD 2 "")
        let system := jsParseFloatOr0 (parts.getD 3 "")
        let idle := jsParseFloatOr0 (parts.getD 4 "")
        let iowait := jsParseFloatOr0 (parts.getD 5 "")
        let irq := jsParseFloatOr0 (parts.getD 6 "")
        let softirq := jsParseFloatOr0 (parts.getD 7 "")
        let steal := jsParseFloatOr0 (parts.getD 8 "")
        let totalIdle := idle + iowait
        let totalNonIdle := user + nice + system + irq + softirq + steal
        let total := totalIdle + totalNonIdle
        if total > 0 then some (min (max ((totalNonIdle / total) * 100) 0) 100)
        else none
      else none
    | none => none
  else none

/-- `getHostCPUUsage` (route.ts lines 178–218): the stat branch, else
`Math.min(loadavg[0] / count * 100, 100)` with JavaScript division. -/
def getHostCPUUsage (fs : FS) (osF : OSFacts) : JSVal :=
  match cpuUsageFromStatDoc (readHostFile fs "/proc/stat" (fun _ => "")) with
  | some u => .num u
  | none => jsMinC (jsMul (jsDiv osF.load1 ((getHostCPUCount fs osF : Nat) : Rat)) 100) 100

/-! ### Disk (`getHostDiskUsage`, route.ts lines 220–242, and the statfs
block of `GET`, lines 252–266) -/

def diskRootPath (fs : FS) : String :=
  if fs.existsSync "/proc/1/root" then "/proc/1/root/" else "/"

/-- `getHostDiskUsage` (route.ts lines 220–242): on success
`clamp((total − free) / total × 100, 0, 100)` in JavaScript arithmetic, on any
thrown statistics query `0`. -/
def getHostDiskUsage (fs : FS) : JSVal :=
  match fs.statfsSync (diskRootPath fs) with
  | .ok st =>
    let total : Rat := ((st.blocks * st.bsize : Nat) : Rat)
    let free : Rat := ((st.bavail * st.bsize : Nat) : Rat)
    jsMinC (jsMaxC (jsMul (jsDiv (total - free) total) 100) 0) 100
  | .error _ => .num 0

/-- The `disk.total`/`disk.used`/`disk.free` fields of the `GET` response
(route.ts lines 252–266). -/
def diskFields (fs : FS) : Int × Int × Int :=
  match fs.statfsSync (diskRootPath fs) with
  | .ok st =>
    let total : Int := ((st.blocks * st.bsize : Nat) : Int)
    let free : Int := ((st.bavail * st.bsize : Nat) : Int)
    (total, total - free, free)
  | .error _ => (0, 0, 0)

/-! ### Hostname (`getHostHostname`, second variant, route.ts lines 438–449) -/

/-- The regex test `/^[0-9a-f]{12}$/i`. -/
def isDockerId (s : String) : Bool :=
  s.length = 12 && s.toList.all (fun c => (hexVal c).isSome)

/-- `getHostHostname` (route.ts lines 438–449). -/
def getHostHostname (fs : FS) (osF : OSFacts) : String :=
  let hostname := readHostFile fs "/etc/hostname" (fun _ => osF.hostname)
  if hostname ≠ "" then
    if isDockerId hostname then osF.hostname else hostname
  else osF.hostname

/-! ### Default gateway (`getHostIP`, second variant, route.ts lines 541–585) -/

/-- The decode of route.ts lines 553–558: the four octets are
`parseInt(hex[6..8], 16)`, `parseInt(hex[4..6], 16)`, `parseInt(hex[2..4], 16)`
and `parseInt(hex[0..2], 16)`, joined with dots; a slice with no leading hex
digit renders as `NaN`, as JavaScript string conversion does. -/
def decodeGatewayHex (h : String) : String :=
  let oct : Nat → Nat → String := fun i j =>
    match hexLeadNat (sliceStr h i j) with
    | some n => toString n
    | none => "NaN"
  oct 6 8 ++ "." ++ oct 4 6 ++ "." ++ oct 2 4 ++ "." ++ oct 0 2

/-- The `for`-loop of route.ts lines 548–565. -/
def findGateway : List String → Option String
  | [] => none
  | line :: rest =>
    let parts := jsSplitWs (jsTrim line)
    if parts.length ≥ 3 ∧ parts.getD 1 "" = "00000000" then
      let gatewayHex := parts.getD 2 ""
      if gatewayHex ≠ "" ∧ gatewayHex.length = 8 then
        let ip := decodeGatewayHex gatewayHex
        if ip ≠ "0.0.0.0" then some ip else findGateway rest
      else findGateway rest
    else findGateway rest

/-- Route.ts lines 544–566: the loop runs only on a non-empty document. -/
def routeGatewayFromDoc (route : String) : Option String :=
  if route ≠ "" then findGateway (splitLines route) else none

/-- `getHostIP` (route.ts lines 541–585): the routing-table decode, else the
first non-internal IPv4 interface address, else the sentinel. -/
def getHostIP (fs : FS) (osF : OSFacts) : String :=
  match routeGatewayFromDoc (readHostFile fs "/proc/net/route" (fun _ => "")) with
  | some ip => ip
  | none =>
    match osF.ifaces.find? (fun a => a.isIPv4 && !a.internal) with
    | some a => a.address
    | none => "Non disponible"

/-- A process-introspection state used by witnesses. -/
def osSample : OSFacts :=
  { totalmem := 8192000, freemem := 999, cpus := ["sample-cpu"], load1 := 0,
    hostname := "real-host", ifaces := [] }

/-- A process-introspection state whose `os.cpus()` listing is empty. -/
def osNoCPUs : OSFacts :=
  { totalmem := 8192000, freemem := 999, cpus := [], load1 := 0,
    hostname := "real-host", ifaces := [] }

/-- A filesystem where the host-mount candidate file `/host/cpuinfo` is a
readable regular file with non-empty content, but the host-mount marker
directories `/host/proc`, `/host/sys`, `/host/etc` are absent (a partial
bind-mount), and nothing else exists. -/
def hostOnlyFS : FS where
  existsSync := fun p => p = "/host/cpuinfo"
  statIsFile := fun p => if p = "/host/cpuinfo" then .ok true else .error ()
  readFileSync := fun p => if p = "/host/cpuinfo" then .ok "Intel" else .error ()
  statfsSync := fun _ => .error ()

/-- A filesystem whose block-statistics query succeeds but reports zero
blocks (as some pseudo-filesystems do). -/
def diskZeroFS : FS where
  existsSync := fun _ => false
  statIsFile := fun _ => .error ()
  readFileSync := fun _ => .error ()
  statfsSync := fun _ => .ok { blocks := 0, bsize := 4096, bavail := 0 }

/-- The meminfo document of the spec's worked example. -/
def memDocC3 : String := "MemTotal: 1048576 kB\nMemAvailable: 524288 kB"

/-- A meminfo document whose `MemAvailable` value exceeds its `MemTotal`
value. -/
def memDocNeg : String := "MemTotal: 100 kB\nMemAvailable: 200 kB"

/-- A meminfo document with a `MemFree` line and no `MemAvailable` line. -/
def memDocFreeOnly : String := "MemTotal: 100 kB\nMemFree: 50 kB"

/-- A routing-table document with a header line and the spec's example
default-route line. -/
def routeDocC8 : String :=
  "Iface\tDestination\tGateway\neth0\t00000000\t0202000A\t0003\t0\t0\t0\t00000000\t0\t0\t0"

/-- A routing-table document whose default-route line has an 8-character but
non-hexadecimal gateway field. -/
def routeDocBadHex : String := "eth0 00000000 zzzzzzzz 0003"

example : splitLines "a\nb" = ["a", "b"] := by decide
example : splitLines "" = [""] := by decide
example : jsTrim "  x \n" = "x" := by decide
example : jsSplitWs "cpu  100 0" = ["cpu", "100", "0"] := by decide
example : firstDigitRun "MemTotal: 1048576 kB" = some 1048576 := by decide
example : jsParseFloatOr0 "800" = 800 := by with_unfolding_all rfl
example : jsParseFloatOr0 "" = 0 := by with_unfolding_all rfl
example : hexLeadNat "0A" = some 10 := by decide
example : readHostFile (localFS "/proc/meminfo" "hello\n") "/proc/meminfo" (fun _ => "fb") = "hello" := by decide
example : readHostFile emptyFS "/proc/meminfo" (fun _ => "fb") = "fb" := by decide
example :
    getHostCPUUsage (localFS "/proc/stat" "cpu 100 0 50 800 50 0 0 0") osSample = .num 15 := by
  with_unfolding_all rfl
example : getHostCPUCount (localFS "/proc/cpuinfo" "CPU(s): 4") osSample = 4 := by decide
example :
    (getHostMemory (localFS "/proc/meminfo" "MemTotal: 1048576 kB\nMemAvailable: 524288 kB")
      osSample).total = 1073741824 := by decide
example :
    memoryUsedField (localFS "/proc/meminfo" "MemTotal: 1048576 kB\nMemAvailable: 524288 kB")
      osSample = 536870912 := by decide
example : getHostHostname (localFS "/etc/hostname" "a1b2c3d4e5f6") osSample = "real-host" := by
  decide
example : getHostHostname (localFS "/etc/hostname" "box01\n") osSample = "box01" := by decide
example : decodeGatewayHex "0202000A" = "10.0.2.2" := by decide
example :
    getHostIP (localFS "/proc/net/route"
      "Iface\tDestination\tGateway\neth0\t00000000\t0202000A\t0003\t0\t0\t0\t00000000\t0\t0\t0")
      osSample = "10.0.2.2" := by decide
example : getHostDiskUsage emptyFS = .num 0 := by decide
example : getHostCPUCount emptyFS { osSample with cpus := [] } = 0 := by decide
example : (memFromDoc osSample "MemTotal: 100 kB\nMemFree: 50 kB").available = 999 := by decide
example : (memFromDoc2 osSample "MemTotal: 100 kB\nMemFree: 50 kB").2 = 51200 := by decide
example : getHostCPUUsage (localFS "/proc/stat" "cpu 100 0 50") osSample = .num 0 := by
  with_unfolding_all rfl

/-! ### Helper lemmas (shared) -/

/-- A successful guarded read delivers exactly the trimmed, non-empty content
of the file's raw text. -/
theorem tryRead_some_spec (fs : FS) (p c : String) (h : tryRead fs p = some c) :
    ∃ raw, fs.readFileSync p = Except.ok raw ∧ jsTrim raw ≠ "" ∧ c = jsTrim raw := by
  unfold tryRead at h
  split at h
  · split at h
    next hread =>
      split at h
      next hok =>
        split at h
        next hne => exact ⟨_, hok, hne, (Option.some_inj.mp h).symm⟩
        · cases h
      next => cases h
    next => cases h
    next => cases h
  · cases h

/-- A successful tier attempt is a successful guarded read at the tier's
candidate path. -/
theorem tierRead_some (fs : FS) (path : String) (k : Nat) (c : String)
    (h : tierRead fs path k = some c) : tryRead fs (tierPath path k) = some c := by
  match k with
  | 0 =>
    rw [show tierRead fs path 0
      = (if fs.existsSync "/proc/1/root" = true then tryRead fs (tierPath path 0) else none)
      from rfl] at h
    split at h
    · exact h
    · cases h
  | 1 =>
    rw [show tierRead fs path 1
      = (if isHostMounted fs = true then tryRead fs (tierPath path 1) else none)
      from rfl] at h
    split at h
    · exact h
    · cases h
  | 2 => exact h
  | n + 3 => cases h

/-- Resolution against a filesystem holding exactly one container-local file:
the trimmed document when it is non-empty, else the fallback. -/
theorem readHostFile_localFS (path doc : String) (fb : Unit → String)
    (h0 : path ≠ "/proc/1/root") :
    readHostFile (localFS path doc) path fb
      = if jsTrim doc = "" then fb () else jsTrim doc := by
  have g0 : (localFS path doc).existsSync "/proc/1/root" = false := by
    simp only [localFS, decide_eq_false_iff_not]
    exact fun h => h0 h.symm
  have g1 : isHostMounted (localFS path doc) = false := by
    simp only [isHostMounted, localFS]
    by_cases h1 : "/host/proc" = path
    · by_cases h2 : "/host/sys" = path
      · exact absurd (h1.trans h2.symm) (by decide)
      · simp [h2]
    · simp [h1]
  have t0 : tierRead (localFS path doc) path 0 = none := by
    unfold tierRead; rw [g0]; rfl
  have t1 : tierRead (localFS path doc) path 1 = none := by
    unfold tierRead; rw [g1]; rfl
  have t2 : tryRead (localFS path doc) path
      = if jsTrim doc = "" then none else some (jsTrim doc) := by
    unfold tryRead
    by_cases hd : jsTrim doc = ""
    · simp [localFS, hd]
    · simp [localFS, hd]
  unfold readHostFile
  rw [t0, t1]
  show (match tierRead (localFS path doc) path 2 with
    | some c => c
    | none => fb ()) = _
  rw [show tierRead (localFS path doc) path 2 = tryRead (localFS path doc) path from rfl, t2]
  by_cases hd : jsTrim doc = ""
  · rw [if_pos hd, if_pos hd]
  · rw [if_neg hd, if_neg hd]

/-! ### C1 -/

/--
C1 counterexample. The claim quantifies over *every* filesystem state in
which exactly one of the three candidate tiers holds a readable, non-empty
regular file. In `hostOnlyFS`, the host-mount candidate `/host/cpuinfo` is
the unique tier holding such a file (its guarded read succeeds with content
`Intel`; both other tiers' guarded reads fail), yet `readHostFile` returns
the fallback, not `Intel`: the host tier is gated by the marker-directory
check `isHostMounted`, which fails here.
-/
theorem readHostFile_c1_gated_host_tier_cex :
    tryRead hostOnlyFS "/host/cpuinfo" = some "Intel" ∧
      tryRead hostOnlyFS "/proc/1/root/cpuinfo" = none ∧
      tryRead hostOnlyFS "/cpuinfo" = none ∧
      readHostFile hostOnlyFS "/cpuinfo" (fun _ => "fallback-value") = "fallback-value" ∧
      "fallback-value" ≠ "Intel" := by
  refine ⟨by decide, by decide, by decide, by decide, by decide⟩

/--
C1 (amended): tiers are attempted in the fixed order process-root,
host-mount, local, and each tier is attempted only under its guard
(`/proc/1/root` existing for tier 0, the `/host/proc`, `/host/sys`,
`/host/etc` markers for tier 1, unconditionally for tier 2). When tier `k`'s
guarded attempt yields trimmed non-empty content `c` and every
earlier tier's guarded attempt yields nothing (failing guard, missing or
non-regular or unreadable file, or whitespace-only content), `readHostFile`
returns `c`, ignoring all lower-priority tiers.
-/
theorem readHostFile_c1_tier_priority (fs : FS) (path : String) (fb : Unit → String)
    (k : Nat) (c : String) (hk : tierRead fs path k = some c)
    (hprev : ∀ j, j < k → tierRead fs path j = none) :
    readHostFile fs path fb = c := by
  unfold readHostFile
  match k with
  | 0 => rw [hk]
  | 1 => rw [hprev 0 (by omega), hk]
  | 2 => rw [hprev 0 (by omega), hprev 1 (by omega), hk]
  | n + 3 => cases hk

/-- C1 witness: the amended theorem applied at a concrete local-tier-only
filesystem. -/
theorem readHostFile_c1_tier_priority_witness :
    readHostFile (localFS "/proc/meminfo" "hello") "/proc/meminfo" (fun _ => "fb") = "hello" :=
  readHostFile_c1_tier_priority (localFS "/proc/meminfo" "hello") "/proc/meminfo"
    (fun _ => "fb") 2 "hello" (by decide)
    (by intro j hj; interval_cases j <;> decide)

/-! ### C2 -/

/--
C2: `readHostFile` is total (exceptions of the underlying filesystem calls
are swallowed tier by tier, modelled by the `Except` results): for every
filesystem state, path and fallback producer it returns either the non-empty
trimmed text of one of the three candidate files, or the fallback producer's
result — and in the latter case all three guarded tier attempts yielded no
usable content.
-/
theorem readHostFile_c2_never_raises (fs : FS) (path : String) (fb : Unit → String) :
    (∃ k, k < 3 ∧ ∃ raw, fs.readFileSync (tierPath path k) = Except.ok raw ∧
        jsTrim raw ≠ "" ∧ readHostFile fs path fb = jsTrim raw) ∨
      ((∀ k, tierRead fs path k = none) ∧ readHostFile fs path fb = fb ()) := by
  unfold readHostFile
  rcases h0 : tierRead fs path 0 with _ | c0
  · rcases h1 : tierRead fs path 1 with _ | c1
    · rcases h2 : tierRead fs path 2 with _ | c2
      · right
        refine ⟨fun k => ?_, rfl⟩
        match k with
        | 0 => exact h0
        | 1 => exact h1
        | 2 => exact h2
        | n + 3 => rfl
      · left
        obtain ⟨raw, hr, hne, hc⟩ := tryRead_some_spec fs _ c2 (tierRead_some fs path 2 c2 h2)
        exact ⟨2, by omega, raw, hr, hne, by rw [hc]⟩
    · left
      obtain ⟨raw, hr, hne, hc⟩ := tryRead_some_spec fs _ c1 (tierRead_some fs path 1 c1 h1)
      exact ⟨1, by omega, raw, hr, hne, by rw [hc]⟩
  · left
    obtain ⟨raw, hr, hne, hc⟩ := tryRead_some_spec fs _ c0 (tierRead_some fs path 0 c0 h0)
    exact ⟨0, by omega, raw, hr, hne, by rw [hc]⟩

/-! ### C3 -/

/--
C3: on the spec's worked meminfo document the resolved memory metrics are
`total = 1073741824`, `available = 536870912` and the snapshot's `used` field
is `536870912`; in general the `used` field is `total − available`, each
parsed labelled kB value is multiplied by `1024`, and the parse of a
non-empty document draws each field from its labelled line.
-/
theorem getHostMemory_c3_kb_and_used :
    ((getHostMemory (localFS "/proc/meminfo" memDocC3) osSample).total = 1073741824 ∧
      (getHostMemory (localFS "/proc/meminfo" memDocC3) osSample).available = 536870912 ∧
      memoryUsedField (localFS "/proc/meminfo" memDocC3) osSample = 536870912) ∧
    (∀ fs osF, memoryUsedField fs osF
      = (getHostMemory fs osF).total - (getHostMemory fs osF).available) ∧
    (∀ lines label dflt l n, List.find? (fun l2 => strStarts l2 label) lines = some l →
      firstDigitRun l = some n → memFieldVal lines label dflt = (n : Int) * 1024) ∧
    (∀ osF doc, doc ≠ "" →
      (memFromDoc osF doc).total = memFieldVal (splitLines doc) "MemTotal" (osF.totalmem : Int) ∧
      (memFromDoc osF doc).available
        = memFieldVal (splitLines doc) "MemAvailable" (osF.freemem : Int) ∧
      (memFromDoc osF doc).free = memFieldVal (splitLines doc) "MemFree" (osF.freemem : Int)) := by
  refine ⟨⟨by decide, by decide, by decide⟩, fun fs osF => rfl, ?_, ?_⟩
  · intro lines label dflt l n hfind hdig
    simp only [memFieldVal, hfind, hdig]
  · intro osF doc hd
    unfold memFromDoc
    rw [if_pos hd]
    exact ⟨rfl, rfl, rfl⟩

/-! ### C4 -/

/--
C4 counterexample. The claim says the memory extractor resolves the
available-memory metric from the `MemFree` line when `MemAvailable` is
absent. The first variant's extractor (`getHostMemory`, route.ts lines
138–176) does not: on a document with `MemFree: 50 kB` and no `MemAvailable`
line its `available` field stays at the process's own free-memory reading
(`999` here), not `50 × 1024 = 51200`.
-/
theorem memFromDoc_c4_memfree_ignored_cex :
    (memFromDoc osSample memDocFreeOnly).available = 999 ∧ (999 : Int) ≠ 51200 := by
  refine ⟨by decide, by decide⟩

/--
C4 (amended): the `MemAvailable`-preferred / `MemFree`-fallback resolution
holds for the second variant's extractor (route.ts lines 402–423), whose
single free/available metric is drawn from the first `MemAvailable` line and,
when none exists, from the first `MemFree` line; the first variant's
extractor (route.ts lines 147–175) instead leaves its `available` field at
the process's own free-memory reading whenever `MemAvailable` is absent.
-/
theorem getHostMemory2_c4_memavailable_preference :
    (∀ osF doc l n, doc ≠ "" →
      List.find? (fun l2 => strStarts l2 "MemAvailable") (splitLines doc) = none →
      List.find? (fun l2 => strStarts l2 "MemFree") (splitLines doc) = some l →
      firstDigitRun l = some n → (memFromDoc2 osF doc).2 = (n : Int) * 1024) ∧
    (∀ osF doc l n, doc ≠ "" →
      List.find? (fun l2 => strStarts l2 "MemAvailable") (splitLines doc) = some l →
      firstDigitRun l = some n → (memFromDoc2 osF doc).2 = (n : Int) * 1024) ∧
    (∀ osF doc, doc ≠ "" →
      List.find? (fun l2 => strStarts l2 "MemAvailable") (splitLines doc) = none →
      (memFromDoc osF doc).available = (osF.freemem : Int)) := by
  refine ⟨?_, ?_, ?_⟩
  · intro osF doc l n hd hno hfree hdig
    unfold memFromDoc2
    rw [if_pos hd]
    simp only [hno, hfree, hdig]
  · intro osF doc l n hd havail hdig
    unfold memFromDoc2
    rw [if_pos hd]
    simp only [havail, hdig]
  · intro osF doc hd hno
    unfold memFromDoc memFieldVal
    rw [if_pos hd]
    simp only [hno]

/-! ### C5 -/

/--
C5 counterexample. The claim covers every stat document whose `cpu ` line
carries the counters in positional order "with absent trailing fields
treated as 0"; for the line `cpu 100 0 50` it therefore predicts usage
`(100+0+50)/(100+0+50)×100 = 100`. The code instead requires at least five
whitespace-separated fields (route.ts line 189) and otherwise falls back to
the load-average path, which yields `0` here — not `100`.
-/
theorem getHostCPUUsage_c5_short_line_cex :
    getHostCPUUsage (localFS "/proc/stat" "cpu 100 0 50") osSample = JSVal.num 0 ∧
      JSVal.num 0 ≠ JSVal.num 100 := by
  refine ⟨by with_unfolding_all rfl, by decide⟩

/--
C5 (amended): when the first `cpu ` aggregate line has at least five fields
(`user nice system idle` present; later absent fields treated as 0) and a
positive counter total, usage is the busy/total ratio × 100 clamped to
[0, 100] — `cpu 100 0 50 800 50 0 0 0` yields exactly 15; every usage the
stat branch produces lies in [0, 100]; when the `cpu ` line is absent (or the
line is shorter than five fields, or the denominator is zero) the stat
branch yields nothing and usage is `min(loadavg₁ / resolved CPU count × 100,
100)` in JavaScript arithmetic, with no lower clamp.
-/
theorem getHostCPUUsage_c5_spec :
    (getHostCPUUsage (localFS "/proc/stat" "cpu 100 0 50 800 50 0 0 0") osSample
      = JSVal.num 15) ∧
    (∀ doc u, cpuUsageFromStatDoc doc = some u → 0 ≤ u ∧ u ≤ 100) ∧
    (∀ doc, List.find? (fun l => strStarts l "cpu ") (splitLines doc) = none →
      cpuUsageFromStatDoc doc = none) ∧
    (∀ fs osF, cpuUsageFromStatDoc (readHostFile fs "/proc/stat" (fun _ => "")) = none →
      getHostCPUUsage fs osF
        = jsMinC (jsMul (jsDiv osF.load1 ((getHostCPUCount fs osF : Nat) : Rat)) 100) 100) := by
  refine ⟨by with_unfolding_all rfl, ?_, ?_, ?_⟩
  · intro doc u h
    unfold cpuUsageFromStatDoc at h
    split at h
    · split at h
      · dsimp only at h
        split at h
        · split at h
          · obtain rfl := Option.some_inj.mp h.symm
            exact ⟨le_min (le_max_right _ _) (by norm_num), min_le_right _ _⟩
          · cases h
        · cases h
      · cases h
    · cases h
  · intro doc h
    unfold cpuUsageFromStatDoc
    split
    · rw [h]
    · rfl
  · intro fs osF h
    unfold getHostCPUUsage
    rw [h]

/-! ### C6 -/

/--
C6 counterexample. The claim says the resolved count is never less than 1 in
every case. When no tier yields content and the process's own `os.cpus()`
listing is empty, the fallback document is empty and the source returns
`os.cpus().length` directly (route.ts lines 134–135), with no `|| 1` floor:
the resolved count is `0`.
-/
theorem getHostCPUCount_c6_zero_cex :
    getHostCPUCount emptyFS osNoCPUs = 0 ∧ ¬ 1 ≤ getHostCPUCount emptyFS osNoCPUs := by
  refine ⟨by decide, by decide⟩

/--
C6 (amended): on a non-empty resolved document the count is the number of
`processor` lines when positive; with zero processor lines the `CPU(s):`
summary line's leading integer is used (`CPU(s): 4` resolves to 4); when that
too yields zero the process's own logical CPU count is used; and the `|| 1`
floor makes the count at least 1 whenever a non-empty document was resolved.
When no document at all is available (empty fallback, possible only with an
empty `os.cpus()` listing), the count is the process's CPU count, which can
be 0.
-/
theorem getHostCPUCount_c6_spec :
    (∀ osF doc, 0 < ((splitLines doc).filter isProcessorLine).length →
      cpuCountFromDoc osF doc = ((splitLines doc).filter isProcessorLine).length) ∧
    (∀ osF, getHostCPUCount (localFS "/proc/cpuinfo" "CPU(s): 4") osF = 4) ∧
    (∀ osF doc, ((splitLines doc).filter isProcessorLine).length = 0 →
      cpuSummaryCount (splitLines doc) = 0 → cpuCountFromDoc osF doc = osF.cpus.length) ∧
    (∀ fs osF, readHostFile fs "/proc/cpuinfo" (fun _ => cpuinfoFallbackDoc osF) ≠ "" →
      1 ≤ getHostCPUCount fs osF) := by
  refine ⟨?_, fun osF => rfl, ?_, ?_⟩
  · intro osF doc h
    have h1 : ((splitLines doc).filter isProcessorLine).length ≠ 0 := Nat.pos_iff_ne_zero.mp h
    unfold cpuCountFromDoc
    dsimp only
    rw [if_neg h1, if_neg h1]
  · intro osF doc h1 h2
    simp [cpuCountFromDoc, h1, h2]
  · intro fs osF h
    unfold getHostCPUCount
    dsimp only
    rw [if_pos h]
    split
    · omega
    · omega

/-! ### C7 -/

/--
C7: for every hostname-file content, the resolver rejects a trimmed value
matching the 12-character hexadecimal pattern and returns the process's own
OS-reported hostname instead; any other non-empty trimmed content is
returned verbatim.
-/
theorem getHostHostname_c7_docker_filter (osF : OSFacts) (c : String)
    (h : jsTrim c ≠ "") :
    getHostHostname (localFS "/etc/hostname" c) osF
      = if isDockerId (jsTrim c) then osF.hostname else jsTrim c := by
  unfold getHostHostname
  dsimp only
  rw [readHostFile_localFS _ _ _ (by decide), if_neg h, if_pos h]

/-- C7 witness: the hostname file holding the 12-hex-character content
`a1b2c3d4e5f6` resolves to the process's own hostname. -/
theorem getHostHostname_c7_docker_filter_witness :
    getHostHostname (localFS "/etc/hostname" "a1b2c3d4e5f6") osSample = "real-host" :=
  (getHostHostname_c7_docker_filter osSample "a1b2c3d4e5f6" (by decide)).trans (by decide)

/-! ### C8 -/

/--
C8 counterexample. The claim says lines that do not parse are skipped. A
default-route line whose third field is 8 characters long but not hexadecimal
is not skipped: each octet decodes through `parseInt(…, 16)` to `NaN`, and
the joined string `NaN.NaN.NaN.NaN` (which differs from the guarded
`0.0.0.0`) is returned as the gateway, instead of falling through to the
interface fallback (here the sentinel, since `osSample` has no interfaces).
-/
theorem getHostIP_c8_nan_cex :
    getHostIP (localFS "/proc/net/route" routeDocBadHex) osSample = "NaN.NaN.NaN.NaN" ∧
      "NaN.NaN.NaN.NaN" ≠ "Non disponible" := by
  refine ⟨by decide, by decide⟩

/--
C8 (amended): the spec's example line decodes to `10.0.2.2` (byte pairs at
offsets [6:8], [4:6], [2:4], [0:2]); lines with fewer than three fields or a
second field other than `00000000` are skipped, as are default-route lines
whose third field is not 8 characters long and those decoding to `0.0.0.0`
(but not length-8 non-hexadecimal fields, which produce a `NaN` address — see
the counterexample); with no usable default route the resolver returns the
first non-internal IPv4 interface address, and the `Non disponible` sentinel
when there is none.
-/
theorem getHostIP_c8_spec :
    (∀ osF, getHostIP (localFS "/proc/net/route" routeDocC8) osF = "10.0.2.2") ∧
    (decodeGatewayHex "0202000A" = "10.0.2.2") ∧
    (∀ line rest, (jsSplitWs (jsTrim line)).length < 3 ∨
        (jsSplitWs (jsTrim line)).getD 1 "" ≠ "00000000" →
      findGateway (line :: rest) = findGateway rest) ∧
    (∀ line rest, ((jsSplitWs (jsTrim line)).getD 2 "").length ≠ 8 →
      findGateway (line :: rest) = findGateway rest) ∧
    (∀ rest, findGateway ("eth0 00000000 00000000 0003" :: rest) = findGateway rest) ∧
    (∀ fs osF a,
      routeGatewayFromDoc (readHostFile fs "/proc/net/route" (fun _ => "")) = none →
      List.find? (fun x => x.isIPv4 && !x.internal) osF.ifaces = some a →
      getHostIP fs osF = a.address) ∧
    (∀ fs osF,
      routeGatewayFromDoc (readHostFile fs "/proc/net/route" (fun _ => "")) = none →
      List.find? (fun x => x.isIPv4 && !x.internal) osF.ifaces = none →
      getHostIP fs osF = "Non disponible") := by
  refine ⟨fun osF => rfl, by decide, ?_, ?_, fun rest => rfl, ?_, ?_⟩
  · intro line rest h
    have hneg : ¬((jsSplitWs (jsTrim line)).length ≥ 3 ∧
        (jsSplitWs (jsTrim line)).getD 1 "" = "00000000") := by
      intro hc
      rcases h with h3 | hf
      · exact absurd hc.1 (by omega)
      · exact hf hc.2
    conv_lhs => rw [findGateway]
    dsimp only
    rw [if_neg hneg]
  · intro line rest h
    have hneg : ¬((jsSplitWs (jsTrim line)).getD 2 "" ≠ "" ∧
        ((jsSplitWs (jsTrim line)).getD 2 "").length = 8) := by
      intro hc
      exact h hc.2
    conv_lhs => rw [findGateway]
    dsimp only
    rw [if_neg hneg]
    split
    · rfl
    · rfl
  · intro fs osF a h1 h2
    unfold getHostIP
    simp only [h1, h2]
  · intro fs osF h1 h2
    unfold getHostIP
    simp only [h1, h2]

/-! ### C9 -/

/--
C9 counterexample. The claim says every successful block-statistics query
yields `usage = used/total × 100` clamped to [0, 100]. On a successful query
reporting zero blocks, `used/total` is `0/0`, which is `NaN` in JavaScript;
`Math.max` and `Math.min` propagate it, so the returned usage is `NaN`, not a
clamped number.
-/
theorem getHostDiskUsage_c9_zero_total_cex :
    getHostDiskUsage diskZeroFS = JSVal.nan ∧ JSVal.nan ≠ JSVal.num 0 := by
  refine ⟨by with_unfolding_all rfl, by decide⟩

/--
C9 (amended): disk resolution is total (both statistics queries are
`Except`-modelled and every outcome is handled): on a failed query the usage
is 0 and total/used/free are all 0; on a successful query total/used/free are
`blocks × bsize`, `total − free`, `bavail × bsize`; and when the total is
non-zero the usage is `used/total × 100` clamped to [0, 100] (with zero total
it is `NaN` — see the counterexample).
-/
theorem disk_c9_spec :
    (∀ fs, fs.statfsSync (diskRootPath fs) = Except.error () →
      getHostDiskUsage fs = JSVal.num 0 ∧ diskFields fs = (0, 0, 0)) ∧
    (∀ fs st, fs.statfsSync (diskRootPath fs) = Except.ok st →
      diskFields fs = (((st.blocks * st.bsize : Nat) : Int),
        ((st.blocks * st.bsize : Nat) : Int) - ((st.bavail * st.bsize : Nat) : Int),
        ((st.bavail * st.bsize : Nat) : Int))) ∧
    (∀ fs st, fs.statfsSync (diskRootPath fs) = Except.ok st →
      0 < st.blocks * st.bsize →
      getHostDiskUsage fs = JSVal.num (min (max
        ((((st.blocks * st.bsize : Nat) : Rat) - ((st.bavail * st.bsize : Nat) : Rat))
          / ((st.blocks * st.bsize : Nat) : Rat) * 100) 0) 100)) := by
  refine ⟨?_, ?_, ?_⟩
  · intro fs h
    constructor
    · unfold getHostDiskUsage
      rw [h]
    · unfold diskFields
      rw [h]
  · intro fs st h
    unfold diskFields
    rw [h]
  · intro fs st h hpos
    have hne : ((st.blocks * st.bsize : Nat) : Rat) ≠ 0 :=
      Nat.cast_ne_zero.mpr (Nat.pos_iff_ne_zero.mp hpos)
    unfold getHostDiskUsage
    rw [h]
    dsimp only
    simp only [jsDiv, jsMul, jsMaxC, jsMinC, if_neg hne]

/-- C9 witness: the amended theorem applied to a concrete successful query
(`blocks = 100`, `bsize = 1024`, `bavail = 25`): usage is exactly 75. -/
theorem disk_c9_spec_witness :
    getHostDiskUsage
      { existsSync := fun _ => false, statIsFile := fun _ => Except.error (),
        readFileSync := fun _ => Except.error (),
        statfsSync := fun _ => Except.ok { blocks := 100, bsize := 1024, bavail := 25 } }
      = JSVal.num 75 := by
  rw [(disk_c9_spec).2.2 _ { blocks := 100, bsize := 1024, bavail := 25 } rfl (by norm_num)]
  norm_num

/-! ### C10 -/

/--
C10: the snapshot's `memory.used` field is exactly `total − available` with
no clamping, so a meminfo document whose parsed `MemAvailable` kB value
exceeds its parsed `MemTotal` kB value yields a negative reported `used`.
-/
theorem memoryUsedField_c10_negative (osF : OSFacts) (doc : String) (lt la : String)
    (nt na : Nat)
    (ht : List.find? (fun l => strStarts l "MemTotal") (splitLines (jsTrim doc)) = some lt)
    (htn : firstDigitRun lt = some nt)
    (ha : List.find? (fun l => strStarts l "MemAvailable") (splitLines (jsTrim doc)) = some la)
    (han : firstDigitRun la = some na)
    (hlt : nt < na) :
    memoryUsedField (localFS "/proc/meminfo" doc) osF < 0 := by
  have hne : jsTrim doc ≠ "" := by
    intro h
    rw [h] at ht
    rw [show List.find? (fun l => strStarts l "MemTotal") (splitLines "") = none
      from by decide] at ht
    cases ht
  unfold memoryUsedField getHostMemory
  rw [readHostFile_localFS _ _ _ (by decide), if_neg hne]
  unfold memFromDoc
  rw [if_pos hne]
  dsimp only
  simp only [memFieldVal, ht, htn, ha, han]
  omega

/-- C10 witness: `MemTotal: 100 kB` with `MemAvailable: 200 kB` reports
`used = −102400`. -/
theorem memoryUsedField_c10_negative_witness :
    memoryUsedField (localFS "/proc/meminfo" memDocNeg) osSample < 0 :=
  memoryUsedField_c10_negative osSample memDocNeg "MemTotal: 100 kB" "MemAvailable: 200 kB"
    100 200 (by decide) (by decide) (by decide) (by decide) (by decide)

end Route
